import Mathlib

/-!
Shallow embedding of `src/lib/scylla_cloud.py` (scylla-machine-image).

Device names, mount points, instance-type strings and metadata values are
modelled as `List Char`; Python floats (memory size in GB, disk size in GB)
are modelled as `ℚ`; fallible code returns `Except String _` or `Option _`.
-/

/-- Character list of a string literal (Python strings are modelled as `List Char`). -/
def chars (s : String) : List Char := s.data

/-- Python `s.startswith(p)` on character lists. -/
def pyStartswith (s p : List Char) : Bool :=
  match s, p with
  | _, [] => true
  | [], _ :: _ => false
  | c :: s', q :: p' => c == q && pyStartswith s' p'

theorem pyStartswith_append (p r : List Char) : pyStartswith (p ++ r) p = true := by
  induction p with
  | nil => cases r <;> rfl
  | cons c p ih => simp [pyStartswith, ih]

theorem pyStartswith_eq_append {s p : List Char} (h : pyStartswith s p = true) :
    s = p ++ s.drop p.length := by
  induction p generalizing s with
  | nil => simp
  | cons q p ih =>
    cases s with
    | nil => simp [pyStartswith] at h
    | cons c s' =>
      simp only [pyStartswith, Bool.and_eq_true, beq_iff_eq] at h
      simpa [h.1] using ih h.2

/-- Python `s.split(sep)` for a one-character separator (no maxsplit):
always returns a non-empty list, empty fields are kept. -/
def splitOnChar (sep : Char) : List Char → List (List Char)
  | [] => [[]]
  | c :: cs =>
    match splitOnChar sep cs with
    | [] => [[]]
    | t :: ts => if c = sep then [] :: t :: ts else (c :: t) :: ts

theorem splitOnChar_ne_nil (sep : Char) (s : List Char) : splitOnChar sep s ≠ [] := by
  cases s with
  | nil => simp [splitOnChar]
  | cons c cs =>
    simp only [splitOnChar]
    cases h : splitOnChar sep cs with
    | nil => simp
    | cons t ts =>
      by_cases hc : c = sep <;> simp [hc]

/-- Joining the pieces of a split with the separator. -/
def joinWith (sep : Char) : List (List Char) → List Char
  | [] => []
  | [t] => t
  | t :: ts => t ++ sep :: joinWith sep ts

theorem joinWith_cons_of_ne_nil (sep : Char) (t : List Char) (ts : List (List Char))
    (h : ts ≠ []) : joinWith sep (t :: ts) = t ++ sep :: joinWith sep ts := by
  cases ts with
  | nil => exact absurd rfl h
  | cons u us => rfl

theorem joinWith_splitOnChar (sep : Char) (s : List Char) :
    joinWith sep (splitOnChar sep s) = s := by
  induction s with
  | nil => rfl
  | cons c cs ih =>
    simp only [splitOnChar]
    cases h : splitOnChar sep cs with
    | nil => exact absurd h (splitOnChar_ne_nil sep cs)
    | cons t ts =>
      rw [h] at ih
      by_cases hc : c = sep
      · simp only [if_pos hc]
        rw [joinWith_cons_of_ne_nil sep [] (t :: ts) (by simp)]
        simp [hc, ih]
      · simp only [if_neg hc]
        cases ts with
        | nil => simpa [joinWith] using ih
        | cons u us =>
          rw [joinWith_cons_of_ne_nil sep (c :: t) (u :: us) (by simp)]
          rw [joinWith_cons_of_ne_nil sep t (u :: us) (by simp)] at ih
          simpa using ih

/-- The first token exists such that `joinWith` sees the tail list. -/
theorem joinWith_head_append (sep : Char) (t1 : List Char) (ts : List (List Char)) :
    ∃ r, joinWith sep (t1 :: ts) = t1 ++ r := by
  cases ts with
  | nil => exact ⟨[], by simp [joinWith]⟩
  | cons u us => exact ⟨sep :: joinWith sep (u :: us), rfl⟩

/-- When a split has at least two tokens, the first token, the separator and
the second token form an initial segment of the original string. -/
theorem splitOnChar_two_tokens {sep : Char} {s t0 t1 : List Char} {ts : List (List Char)}
    (h : splitOnChar sep s = t0 :: t1 :: ts) :
    pyStartswith s (t0 ++ sep :: t1) = true := by
  have hj := joinWith_splitOnChar sep s
  rw [h] at hj
  rw [joinWith_cons_of_ne_nil sep t0 (t1 :: ts) (by simp)] at hj
  obtain ⟨r, hr⟩ := joinWith_head_append sep t1 ts
  rw [hr] at hj
  have hs : s = (t0 ++ sep :: t1) ++ r := by
    rw [← hj]; simp
  rw [hs]
  exact pyStartswith_append _ _

/-! ### Metadata fetcher: `curl` (scylla_cloud.py lines 33-47)

The Python loop catches `urllib.error.URLError`; `urllib.error.HTTPError`
is a subclass of `URLError`, so both transport-level and HTTP-level errors
take the retry path.  A failure on attempt `k` (0-based) sets `retries = k+1`
and re-raises once `retries >= max_retries`. -/

/-- What one call of `urllib.request.urlopen` does, per attempt index. -/
inductive FetchOutcome where
  | success (body : List Char)
  | urlError
  | httpError

/-- Result of `curl`: the returned body, or the exception it re-raises. -/
inductive CurlResult where
  | ok (body : List Char)
  | raisedURLError
  | raisedHTTPError
deriving DecidableEq

/-- The `while True` loop of `curl`; `remaining` is the number of further
attempts still allowed after the current one (attempt index `attempt`). -/
def curlLoop (transport : ℕ → FetchOutcome) (attempt : ℕ) : ℕ → CurlResult
  | 0 =>
    match transport attempt with
    | .success b => .ok b
    | .urlError => .raisedURLError
    | .httpError => .raisedHTTPError
  | r + 1 =>
    match transport attempt with
    | .success b => .ok b
    | .urlError => curlLoop transport (attempt + 1) r
    | .httpError => curlLoop transport (attempt + 1) r

/-- `curl(url, ..., max_retries)`: at most `maxRetries` attempts are made
(`retries` reaches `maxRetries` after that many failures and the last
exception is re-raised). -/
def curl (transport : ℕ → FetchOutcome) (maxRetries : ℕ) : CurlResult :=
  curlLoop transport 0 (maxRetries - 1)

theorem curlLoop_success {transport : ℕ → FetchOutcome} {a r : ℕ} {b : List Char}
    (h : transport a = .success b) : curlLoop transport a r = .ok b := by
  cases r <;> simp [curlLoop, h]

theorem curlLoop_urlError_step {transport : ℕ → FetchOutcome} {a r : ℕ}
    (h : transport a = .urlError) :
    curlLoop transport a (r + 1) = curlLoop transport (a + 1) r := by
  simp [curlLoop, h]

theorem curlLoop_httpError_step {transport : ℕ → FetchOutcome} {a r : ℕ}
    (h : transport a = .httpError) :
    curlLoop transport a (r + 1) = curlLoop transport (a + 1) r := by
  simp [curlLoop, h]

/-- C7: with the default budget of 5 attempts, a transport that fails at the
transport level on attempts 0-3 and succeeds on attempt 4 makes `curl`
return the success value, while one that fails on all 5 attempts makes
`curl` re-raise the `URLError` (the unreachable-metadata-service error). -/
theorem c7_retry_budget :
    (∀ (transport : ℕ → FetchOutcome) (b : List Char),
      (∀ k, k < 4 → transport k = .urlError) → transport 4 = .success b →
      curl transport 5 = .ok b)
    ∧ ∀ transport : ℕ → FetchOutcome,
      (∀ k, k < 5 → transport k = .urlError) →
      curl transport 5 = .raisedURLError := by
  constructor
  · intro transport b hfail hok
    show curlLoop transport 0 4 = .ok b
    rw [curlLoop_urlError_step (hfail 0 (by norm_num)),
        curlLoop_urlError_step (hfail 1 (by norm_num)),
        curlLoop_urlError_step (hfail 2 (by norm_num)),
        curlLoop_urlError_step (hfail 3 (by norm_num))]
    exact curlLoop_success hok
  · intro transport hfail
    show curlLoop transport 0 4 = .raisedURLError
    rw [curlLoop_urlError_step (hfail 0 (by norm_num)),
        curlLoop_urlError_step (hfail 1 (by norm_num)),
        curlLoop_urlError_step (hfail 2 (by norm_num)),
        curlLoop_urlError_step (hfail 3 (by norm_num))]
    simp [curlLoop, hfail 4 (by norm_num)]

/-- C7 witness: both halves of `c7_retry_budget` at concrete transports. -/
theorem c7_retry_budget_witness :
    curl (fun k => if k < 4 then .urlError else .success (chars "ok")) 5
      = .ok (chars "ok")
    ∧ curl (fun _ => .urlError) 5 = .raisedURLError :=
  ⟨c7_retry_budget.1 _ (chars "ok") (fun k hk => if_pos hk) (if_neg (by norm_num)),
   c7_retry_budget.2 _ (fun _ _ => rfl)⟩

/-- C8 counterexample: an HTTP-level error on the first attempt is retried,
not propagated: with a transport that returns an HTTP error on attempt 0
and succeeds on attempt 1, `curl` returns the attempt-1 body instead of
raising the HTTP error immediately. -/
theorem c8_counterexample :
    curl (fun k => if k = 0 then .httpError else .success (chars "v")) 5
        = .ok (chars "v")
    ∧ curl (fun k => if k = 0 then .httpError else .success (chars "v")) 5
        ≠ .raisedHTTPError := by
  have h0 : (fun k => if k = 0 then FetchOutcome.httpError
      else FetchOutcome.success (chars "v")) 0 = FetchOutcome.httpError := rfl
  have h1 : (fun k => if k = 0 then FetchOutcome.httpError
      else FetchOutcome.success (chars "v")) 1 = FetchOutcome.success (chars "v") := rfl
  have hc : curl (fun k => if k = 0 then FetchOutcome.httpError
      else FetchOutcome.success (chars "v")) 5 = .ok (chars "v") := by
    show curlLoop _ 0 4 = _
    rw [curlLoop_httpError_step h0]
    exact curlLoop_success h1
  exact ⟨hc, by rw [hc]; simp⟩

/-- C8 amended: `urllib.error.HTTPError` is a subclass of `URLError`, so
HTTP-level errors take the same retry path as transport-level errors; the
error only propagates after the 5-attempt budget is exhausted, and it then
still propagates as the HTTP error, distinguishable by exception type from
a transport-level failure. -/
theorem c8_amended :
    (∀ transport : ℕ → FetchOutcome,
      (∀ k, k < 5 → transport k = .httpError) →
      curl transport 5 = .raisedHTTPError)
    ∧ (∀ (transport : ℕ → FetchOutcome) (b : List Char),
      transport 0 = .httpError → transport 1 = .success b →
      curl transport 5 = .ok b)
    ∧ (CurlResult.raisedHTTPError ≠ CurlResult.raisedURLError) := by
  refine ⟨?_, ?_, by simp⟩
  · intro transport hfail
    show curlLoop transport 0 4 = .raisedHTTPError
    rw [curlLoop_httpError_step (hfail 0 (by norm_num)),
        curlLoop_httpError_step (hfail 1 (by norm_num)),
        curlLoop_httpError_step (hfail 2 (by norm_num)),
        curlLoop_httpError_step (hfail 3 (by norm_num))]
    simp [curlLoop, hfail 4 (by norm_num)]
  · intro transport b h0 h1
    show curlLoop transport 0 4 = .ok b
    rw [curlLoop_httpError_step h0]
    exact curlLoop_success h1

/-- C8 witness: `c8_amended` applied at concrete transports. -/
theorem c8_amended_witness :
    curl (fun _ => .httpError) 5 = .raisedHTTPError
    ∧ curl (fun k => if k = 0 then .httpError else .success (chars "u")) 5
        = .ok (chars "u") :=
  ⟨c8_amended.1 _ (fun _ _ => rfl),
   c8_amended.2.1 _ (chars "u") rfl rfl⟩

/-! ### Instance-type strings: class / size / purpose accessors -/

/-- GCP `instance_class`: `self.instancetype.split("-")[0]` (a split is
never empty, so index 0 is always defined). -/
def gcp_instance_class (t : List Char) : List Char := (splitOnChar '-' t).headI

/-- GCP `instance_purpose`: `self.instancetype.split("-")[1]` (IndexError,
modelled as `none`, when the type string has no "-"). -/
def gcp_instance_purpose (t : List Char) : Option (List Char) :=
  (splitOnChar '-' t)[1]?

/-- GCP `instance_size`: token 2 of the "-"-split when there are more than
two tokens, else the Python integer `0` (modelled as `none`). -/
def gcp_instance_size (t : List Char) : Option (List Char) :=
  let instancetypesplit := splitOnChar '-' t
  if 2 < instancetypesplit.length then instancetypesplit[2]? else none

/-- AWS `instance_class`: `self._type.split(".")[0]`. -/
def aws_instance_class (t : List Char) : List Char := (splitOnChar '.' t).headI

/-- AWS `instance_size`: `self._type.split(".")[1]` (IndexError, modelled
as `none`, when the type string has no "."). -/
def aws_instance_size (t : List Char) : Option (List Char) :=
  (splitOnChar '.' t)[1]?

/-- Azure `instance_purpose`: `self.instancetype.split("_")[0]`. -/
def azure_instance_purpose (t : List Char) : List Char := (splitOnChar '_' t).headI

/-- Azure `instance_class`: `self.instancetype.split("_")[1]` (IndexError,
modelled as `none`, when the type string has no "_"). -/
def azure_instance_class (t : List Char) : Option (List Char) :=
  (splitOnChar '_' t)[1]?

/-- Token 0, the separator and token 1 of a split form an initial segment
of the original string. -/
theorem split_second_token {sep : Char} {t t1 : List Char}
    (h : (splitOnChar sep t)[1]? = some t1) :
    pyStartswith t ((splitOnChar sep t).headI ++ sep :: t1) = true := by
  cases hs : splitOnChar sep t with
  | nil => rw [hs] at h; simp at h
  | cons t0 ts =>
    cases ts with
    | nil => rw [hs] at h; simp at h
    | cons u us =>
      rw [hs] at h
      simp only [List.getElem?_cons_succ, List.getElem?_cons_zero,
        Option.some.injEq] at h
      subst h
      simpa [List.headI] using splitOnChar_two_tokens hs

/-- C5 amended: for AWS, `instance_class() + "." + instance_size()` is an
initial segment of the instance type; for GCP the size token is token 2,
so it is `instance_class() + "-" + instance_purpose()` that reconstructs a
prefix of the type string; for Azure the class is token 1 of the
"_"-split, so it is `instance_purpose() + "_" + instance_class()` that
does (Azure defines no `instance_size` at all). -/
theorem c5_amended :
    (∀ t sz : List Char, aws_instance_size t = some sz →
      pyStartswith t (aws_instance_class t ++ '.' :: sz) = true)
    ∧ (∀ t p : List Char, gcp_instance_purpose t = some p →
      pyStartswith t (gcp_instance_class t ++ '-' :: p) = true)
    ∧ (∀ t c : List Char, azure_instance_class t = some c →
      pyStartswith t (azure_instance_purpose t ++ '_' :: c) = true) := by
  refine ⟨?_, ?_, ?_⟩ <;> intro t x h <;> exact split_second_token h

/-- C5 counterexample: on GCP type `n2-standard-2`, `instance_class()` is
`n2` and `instance_size()` is `2`; joined with the GCP delimiter "-" they
give `n2-2`, which is not a prefix of `n2-standard-2`. -/
theorem c5_counterexample :
    gcp_instance_class (chars "n2-standard-2") = chars "n2"
    ∧ gcp_instance_size (chars "n2-standard-2") = some (chars "2")
    ∧ pyStartswith (chars "n2-standard-2") (chars "n2" ++ '-' :: chars "2") = false :=
  ⟨by decide, by decide, by decide⟩

/-- C5 witness: `c5_amended` at `i3.16xlarge`, `n2-standard-2` and
`Standard_L8s_v2`. -/
theorem c5_amended_witness :
    pyStartswith (chars "i3.16xlarge")
      (aws_instance_class (chars "i3.16xlarge") ++ '.' :: chars "16xlarge") = true
    ∧ pyStartswith (chars "n2-standard-2")
      (gcp_instance_class (chars "n2-standard-2") ++ '-' :: chars "standard") = true
    ∧ pyStartswith (chars "Standard_L8s_v2")
      (azure_instance_purpose (chars "Standard_L8s_v2") ++ '_' :: chars "L8s") = true :=
  ⟨c5_amended.1 _ _ (by decide), c5_amended.2.1 _ _ (by decide),
   c5_amended.2.2 _ _ (by decide)⟩

/-! ### GCP suitability engine (scylla_cloud.py lines 274-355) -/

/-- Python `int(s)` restricted to what the engine needs: an optional sign
followed by decimal digits; `none` models the `ValueError` raised on any
other token. -/
def pythonIntDigits (ds : List Char) : Option ℕ :=
  if !ds.isEmpty && ds.all Char.isDigit then
    some (ds.foldl (fun a c => a * 10 + (c.toNat - 48)) 0)
  else none

def pythonInt : List Char → Option ℤ
  | '-' :: ds => (pythonIntDigits ds).map (fun n => -(n : ℤ))
  | '+' :: ds => (pythonIntDigits ds).map (fun n => (n : ℤ))
  | ds => (pythonIntDigits ds).map (fun n => (n : ℤ))

/-- The single supported m1 machine type, `m1-megamem-96`. -/
def m1supported : List Char := chars "m1-megamem-96"

/-- GCP `is_unsupported_instance_class`: denylist `e2 f1 g1 m2 m1`, with
the `m1-megamem-96` exception. -/
def gcp_is_unsupported_instance_class (t : List Char) : Bool :=
  if t = m1supported then false
  else if gcp_instance_class t ∈
      [chars "e2", chars "f1", chars "g1", chars "m2", chars "m1"] then true
  else false

/-- GCP `is_supported_instance_class`: allow-list `n1 n2 n2d c2`, plus the
`m1-megamem-96` exception. -/
def gcp_is_supported_instance_class (t : List Char) : Bool :=
  if t = m1supported then true
  else if gcp_instance_class t ∈
      [chars "n1", chars "n2", chars "n2d", chars "c2"] then true
  else false

/-- GCP `is_recommended_instance_size`: `int(self.instance_size()) > 1`;
`none` models the `ValueError` of `int()` on a non-numeric size token
(when the size is the integer-`0` sentinel, `int(0) = 0` and the result is
`False`). -/
def gcp_is_recommended_instance_size (t : List Char) : Option Bool :=
  match gcp_instance_size t with
  | none => some false
  | some tok => (pythonInt tok).map (fun n => decide (1 < n))

/-- The characterized attribute values a `gcp_instance` reads inside
`is_recommended_instance`: the cached `instancetype`, `cpu`, `memoryGB`,
`nvme_disk_count` and `firstNvmeSize` properties. -/
structure GcpAttrs where
  instancetype : List Char
  cpu : ℕ
  memoryGB : ℚ
  nvmeDiskCount : ℕ
  firstNvmeSize : ℚ

/-- GCP `is_recommended_instance` (scylla_cloud.py lines 329-355), with the
Python evaluation order: denylist, allow-list, size check (whose `int()`
may raise, modelled as `none`), cpu:RAM ratio, disk-count-vs-cpu floor,
no-disk check, disk:RAM ratio ceiling. -/
def gcp_is_recommended_instance (v : GcpAttrs) : Option Bool :=
  if gcp_is_unsupported_instance_class v.instancetype then some false
  else if !gcp_is_supported_instance_class v.instancetype then some false
  else
    match gcp_is_recommended_instance_size v.instancetype with
    | none => none
    | some false => some false
    | some true =>
      if (v.cpu : ℚ) / v.memoryGB < 1 / 2 then
        if 16 ≤ v.nvmeDiskCount ∧ v.cpu < 32 then some false
        else if v.nvmeDiskCount < 1 then some false
        else if 105 < ((v.nvmeDiskCount : ℚ) * v.firstNvmeSize) / v.memoryGB then
          some false
        else some true
      else some false

/-- C1 counterexample: with the supported class `n2` but the non-numeric
size token `x`, `is_recommended_instance` evaluates `int("x")` before the
cpu:RAM check and raises `ValueError` (modelled `none`) instead of
returning `False`, even though `cpu / memoryGB = 1 >= 0.5`. -/
theorem c1_counterexample :
    (1 : ℚ) / 2 ≤ ((8 : ℕ) : ℚ) / (8 : ℚ)
    ∧ gcp_is_recommended_instance ⟨chars "n2-standard-x", 8, 8, 1, 375⟩ = none := by
  constructor
  · norm_num
  · rfl

/-- C1 amended: whenever `cpu / memoryGB >= 0.5`, `is_recommended_instance`
returns `False` — except that when the size token of a supported,
non-denylisted type fails integer parsing, it raises `ValueError` instead
(the size check runs before the cpu:RAM check). -/
theorem c1_amended (v : GcpAttrs)
    (hr : (1 : ℚ) / 2 ≤ (v.cpu : ℚ) / v.memoryGB) :
    gcp_is_recommended_instance v = some false
    ∨ (gcp_is_recommended_instance v = none
       ∧ gcp_is_recommended_instance_size v.instancetype = none) := by
  have hlt : ¬ ((v.cpu : ℚ) / v.memoryGB < 1 / 2) := not_lt.mpr hr
  unfold gcp_is_recommended_instance
  by_cases h1 : gcp_is_unsupported_instance_class v.instancetype = true
  · rw [if_pos h1]; exact Or.inl rfl
  · rw [if_neg h1]
    by_cases h2 : (!gcp_is_supported_instance_class v.instancetype) = true
    · rw [if_pos h2]; exact Or.inl rfl
    · rw [if_neg h2]
      cases hsz : gcp_is_recommended_instance_size v.instancetype with
      | none => exact Or.inr ⟨rfl, rfl⟩
      | some b =>
        cases b with
        | false => exact Or.inl rfl
        | true => exact Or.inl (if_neg hlt)

/-- C1 witness: `c1_amended` at `n2-standard-2`, cpu 8, 8 GB RAM. -/
theorem c1_amended_witness :
    gcp_is_recommended_instance ⟨chars "n2-standard-2", 8, 8, 1, 375⟩ = some false
    ∨ (gcp_is_recommended_instance ⟨chars "n2-standard-2", 8, 8, 1, 375⟩ = none
       ∧ gcp_is_recommended_instance_size (chars "n2-standard-2") = none) :=
  c1_amended ⟨chars "n2-standard-2", 8, 8, 1, 375⟩ (by norm_num)

/-- C6: assuming the denylist, allow-list, size and cpu:RAM checks pass,
`is_recommended_instance` returns `False` whenever `nvme_disk_count >= 16`
and `cpu < 32`; and the concrete state `diskCount = 20, cpu = 32` (type
`n2-standard-2`, 128 GB RAM, 375 GB first disk) passes that check and all
later ones, yielding `True`. -/
theorem c6_disk_cpu_floor :
    (∀ v : GcpAttrs,
      gcp_is_unsupported_instance_class v.instancetype = false →
      gcp_is_supported_instance_class v.instancetype = true →
      gcp_is_recommended_instance_size v.instancetype = some true →
      (v.cpu : ℚ) / v.memoryGB < 1 / 2 →
      16 ≤ v.nvmeDiskCount → v.cpu < 32 →
      gcp_is_recommended_instance v = some false)
    ∧ gcp_is_recommended_instance ⟨chars "n2-standard-2", 32, 128, 20, 375⟩
        = some true := by
  constructor
  · intro v h1 h2 hsz hr hd hc
    unfold gcp_is_recommended_instance
    rw [h1, h2, hsz]
    simp only [Bool.false_eq_true, if_false, Bool.not_true, if_pos hr]
    rw [if_pos ⟨hd, hc⟩]
  · have h1 : gcp_is_unsupported_instance_class (chars "n2-standard-2") = false := by
      decide
    have h2 : gcp_is_supported_instance_class (chars "n2-standard-2") = true := by
      decide
    have h3 : gcp_is_recommended_instance_size (chars "n2-standard-2") = some true := by
      decide
    simp only [gcp_is_recommended_instance, h1, h2, h3, Bool.false_eq_true,
      if_false, Bool.not_true]
    norm_num

/-- C6 witness: `c6_disk_cpu_floor` at `n2-standard-2`, cpu 16, 64 GB RAM,
20 disks: rejected by the disk-count-vs-cpu floor. -/
theorem c6_disk_cpu_floor_witness :
    gcp_is_recommended_instance ⟨chars "n2-standard-2", 16, 64, 20, 375⟩
      = some false :=
  c6_disk_cpu_floor.1 ⟨chars "n2-standard-2", 16, 64, 20, 375⟩
    (by decide) (by decide) (by decide) (by norm_num) (by norm_num) (by norm_num)

/-! ### Azure classification (scylla_cloud.py lines 493-568) -/

/-- Azure static Lsv2 class-to-disk-count table `instanceToDiskCount`. -/
def azure_instanceToDiskCount : List (List Char × ℕ) :=
  [(chars "L8s", 1), (chars "L16s", 2), (chars "L32s", 4),
   (chars "L48s", 6), (chars "L64s", 8), (chars "L80s", 10)]

/-- Azure `is_unsupported_instance_class`: returns `False` always. -/
def azure_is_unsupported_instance_class (_ : List Char) : Bool := false

/-- Azure `is_supported_instance_class`: membership of the instance class
in the Lsv2 table keys (`none` models the IndexError of `instance_class()`
on a type string without "_"). -/
def azure_is_supported_instance_class (t : List Char) : Option Bool :=
  (azure_instance_class t).map
    (fun cls => decide (cls ∈ azure_instanceToDiskCount.map Prod.fst))

/-- Azure `is_recommended_instance`: `if self.is_unsupported_instance_class()
and self.is_supported_instance_class(): return True; return False`.  The
first conjunct is always `False`, so Python short-circuits and the method
returns `False` on every instance type. -/
def azure_is_recommended_instance (t : List Char) : Option Bool :=
  if azure_is_unsupported_instance_class t then azure_is_supported_instance_class t
  else some false

/-- C10: on `Standard_L8s_v2` the class is supported (present in the Lsv2
table) and not unsupported, yet `is_recommended_instance` returns `False`,
because its condition `unsupported and supported` is inverted and always
false; the method returns `False` for every instance type. -/
theorem c10_inverted_condition :
    azure_is_recommended_instance (chars "Standard_L8s_v2") = some false
    ∧ azure_is_supported_instance_class (chars "Standard_L8s_v2") = some true
    ∧ azure_is_unsupported_instance_class (chars "Standard_L8s_v2") = false
    ∧ ∀ t : List Char, azure_is_recommended_instance t = some false :=
  ⟨rfl, by decide, rfl, fun t => rfl⟩

/-! ### Device prober and disk inventories

The OS view consumed by `psutil.disk_partitions()`, `os.listdir("/dev")`,
`glob.glob("/dev/sd*")`, `/sys/class/nvme/<name>/model` and
`findmnt -n -o SOURCE /` is a synthesized state. -/

/-- Synthesized OS view: the `/dev` listing, the mount table restricted to
(device, mountpoint) pairs, the per-controller NVMe model strings (already
stripped), and the `findmnt -n -o SOURCE /` output. -/
structure OsState where
  devListing : List (List Char)
  partitions : List (List Char × List Char)
  nvmeModel : List Char → List Char
  findmntRootSource : List Char

/-- `[x for x in psutil.disk_partitions() if x.mountpoint == "/"]`. -/
def rootDevCandidates (s : OsState) : List (List Char × List Char) :=
  s.partitions.filter (fun p => decide (p.2 = chars "/"))

/-- `root_devs = [x.device for x in root_dev_candidates]`. -/
def rootDevs (s : OsState) : List (List Char) :=
  (rootDevCandidates s).map Prod.fst

/-- `os.path.join("/dev/", x)`: when `x` is absolute, `join` returns `x`
itself. -/
def osPathJoinDev (x : List Char) : List Char :=
  match x with
  | '/' :: _ => x
  | _ => chars "/dev/" ++ x

/-- `is_in_root_devs` (identical in gcp_instance and azure_instance):
some root device path starts with `/dev/ + x`. -/
def is_in_root_devs (x : List Char) (root_devs : List (List Char)) : Bool :=
  root_devs.any (fun root_dev => pyStartswith root_dev (osPathJoinDev x))

/-- The regex `nvme\d+n\d+$` under `re.match`, returning its first group
`nvme\d+` (the controller name) on a match. -/
def parseNvme (l : List Char) : Option (List Char) :=
  if pyStartswith l (chars "nvme") then
    let rest := l.drop 4
    let ds := rest.takeWhile Char.isDigit
    let rest2 := rest.dropWhile Char.isDigit
    if ds.isEmpty then none
    else
      match rest2 with
      | 'n' :: ds2 =>
        if !ds2.isEmpty && ds2.all Char.isDigit then some (chars "nvme" ++ ds)
        else none
      | _ => none
  else none

def matchNvme (l : List Char) : Bool := (parseNvme l).isSome

/-- The regex `/dev/sd[b-z]+$` under `re.match`. -/
def matchDevSd (l : List Char) : Bool :=
  pyStartswith l (chars "/dev/sd")
  && !(l.drop 7).isEmpty
  && (l.drop 7).all (fun c => decide ('b' ≤ c ∧ c ≤ 'z'))

/-- Python `"...".lstrip('/dev/')`: drops leading characters belonging to
the set `/ d e v` (lstrip takes a character set, not a literal). -/
def lstripDevSet (l : List Char) : List Char :=
  l.dropWhile (fun c => c == '/' || c == 'd' || c == 'e' || c == 'v')

/-- `glob.glob("/dev/sd*")` derived from the `/dev` listing. -/
def devSdGlob (s : OsState) : List (List Char) :=
  (s.devListing.filter (fun n => pyStartswith n (chars "sd"))).map
    (fun n => chars "/dev/" ++ n)

/-- Result of `_non_root_nvmes` on gcp_instance / azure_instance: the ROOT
and EPHEMERAL entries. -/
structure Nvmes where
  root : List (List Char)
  ephemeral : List (List Char)

/-- gcp_instance `_non_root_nvmes` (lines 161-170): no root-count check;
NVMe names whose `/dev` path is a prefix of some root device are dropped. -/
def gcp_non_root_nvmes (s : OsState) : Nvmes :=
  let root_devs := rootDevs s
  { root := root_devs,
    ephemeral := (s.devListing.filter matchNvme).filter
      (fun x => !(is_in_root_devs x root_devs)) }

/-- gcp_instance `_non_root_disks` (lines 172-181): the PERSISTENT entry. -/
def gcp_non_root_disks (s : OsState) : List (List Char) :=
  let root_devs := rootDevs s
  let disks_present := (devSdGlob s).filter matchDevSd
  (disks_present.filter
      (fun x => !(is_in_root_devs (lstripDevSet x) root_devs))).map lstripDevSet

/-- gcp `get_local_disks` (via `os_disks`): the EPHEMERAL entry. -/
def gcp_get_local_disks (s : OsState) : List (List Char) :=
  (gcp_non_root_nvmes s).ephemeral

/-- gcp `get_remote_disks` (via `os_disks`): the PERSISTENT entry. -/
def gcp_get_remote_disks (s : OsState) : List (List Char) :=
  gcp_non_root_disks s

/-- azure_instance `_non_root_nvmes` (lines 432-443): same as GCP's except
that it raises unless exactly one device is mounted at `/`. -/
def azure_non_root_nvmes (s : OsState) : Except String Nvmes :=
  let root_dev_candidates := rootDevCandidates s
  if root_dev_candidates.length ≠ 1 then
    Except.error "found more than one disk mounted at root"
  else
    let root_devs := root_dev_candidates.map Prod.fst
    Except.ok
      { root := root_devs,
        ephemeral := (s.devListing.filter matchNvme).filter
          (fun x => !(is_in_root_devs x root_devs)) }

/-- azure_instance `_non_root_disks` (lines 445-454): code identical to
gcp_instance's. -/
def azure_non_root_disks (s : OsState) : List (List Char) :=
  gcp_non_root_disks s

/-- azure `get_local_disks` (via `os_disks`): EPHEMERAL entry, available
only after `_non_root_nvmes` has succeeded. -/
def azure_get_local_disks (s : OsState) : Except String (List (List Char)) :=
  (azure_non_root_nvmes s).map (fun nv => nv.ephemeral)

/-- azure `get_remote_disks` (via `os_disks`): `os_disks` runs
`_non_root_nvmes` first, so its exception propagates to the PERSISTENT
entry as well. -/
def azure_get_remote_disks (s : OsState) : Except String (List (List Char)) :=
  (azure_non_root_nvmes s).map (fun _ => azure_non_root_disks s)

/-! ### Disk-count reconciliation (C3) -/

/-- One disk object of the GCP metadata `disks?recursive=true` document:
only the `interface` field is ever read. -/
structure GcpDisk where
  dinterface : List Char

/-- gcp `isNVME`: `gcpdiskobj["interface"] == "NVME"`. -/
def gcp_isNVME (d : GcpDisk) : Bool := decide (d.dinterface = chars "NVME")

/-- gcp `__get_nvme_disks_from_metadata`: the parsed `disks` document
filtered to NVME interfaces; a `none` input models the fail-soft `except`
branch (any parse problem yields `{}`, i.e. zero disks). -/
def gcp_get_nvme_disks_from_metadata (md : Option (List GcpDisk)) : List GcpDisk :=
  match md with
  | some disksobj => disksobj.filter gcp_isNVME
  | none => []

/-- gcp `nvme_disk_count` (lines 224-238): the smaller of the OS count and
the metadata count. -/
def gcp_nvme_disk_count (s : OsState) (md : Option (List GcpDisk)) : ℕ :=
  let count_os_disks := (gcp_get_local_disks s).length
  let count_metadata_nvme_disks := (gcp_get_nvme_disks_from_metadata md).length
  if count_os_disks < count_metadata_nvme_disks then count_os_disks
  else count_metadata_nvme_disks

/-- azure `__get_nvme_disks_count_from_metadata` (lines 502-504): static
table lookup keyed by the instance class, default 0; `none` models the
IndexError of `instance_class()` on a type string without "_". -/
def azure_get_nvme_disks_count_from_metadata (t : List Char) : Option ℕ :=
  (azure_instance_class t).map
    (fun cls => (azure_instanceToDiskCount.lookup cls).getD 0)

/-- azure `nvme_disk_count` (lines 478-491): the OS probe is wrapped in
try/except (count 0 on failure); the metadata lookup is outside the try. -/
def azure_nvme_disk_count (s : OsState) (t : List Char) : Option ℕ :=
  let count_os_disks :=
    match azure_get_local_disks s with
    | Except.ok ephemeral_disks => ephemeral_disks.length
    | Except.error _ => 0
  (azure_get_nvme_disks_count_from_metadata t).map
    (fun count_metadata_nvme_disks =>
      if count_os_disks < count_metadata_nvme_disks then count_os_disks
      else count_metadata_nvme_disks)

/-! ### AWS disk inventory (scylla_cloud.py lines 594-745) -/

/-- Synthesized AWS metadata view: the `block-device-mapping` key lines,
the per-key mapped device value, and `os.path.exists`. -/
structure AwsMeta where
  devmap : List (List Char)
  blockDeviceMapping : List Char → List Char
  pathExists : List Char → Bool

/-- aws `__filter_nvmes` for one `/dev` entry: regex match plus the model
string read from `/sys/class/nvme/<controller>/model`. -/
def aws_filter_nvmes (s : OsState) (dev : List Char) (dev_type : List Char) : Bool :=
  match parseNvme dev with
  | none => false
  | some nvme_name =>
    if dev_type = chars "ephemeral" then
      decide (s.nvmeModel nvme_name ≠ chars "Amazon Elastic Block Store")
    else
      decide (s.nvmeModel nvme_name = chars "Amazon Elastic Block Store")

/-- Result of aws `_non_root_nvmes`: the root, ephemeral and ebs entries. -/
structure AwsNvmes where
  root : List (List Char)
  ephemeral : List (List Char)
  ebs : List (List Char)

/-- aws `_non_root_nvmes` (lines 623-635): requires exactly one root
mount; a `/dev/root` root device is dereferenced through `findmnt`; the
EPHEMERAL list is NOT filtered against the root device — only the EBS
list is. -/
def aws_non_root_nvmes (s : OsState) : Except String AwsNvmes :=
  let root_dev_candidates := rootDevCandidates s
  if root_dev_candidates.length ≠ 1 then
    Except.error "found more than one disk mounted at root"
  else
    let root_dev0 := (root_dev_candidates.headI).1
    let root_dev :=
      if root_dev0 = chars "/dev/root" then s.findmntRootSource else root_dev0
    let ephemeral_present :=
      s.devListing.filter (fun x => aws_filter_nvmes s x (chars "ephemeral"))
    let ebs_present :=
      s.devListing.filter (fun x => aws_filter_nvmes s x (chars "ebs"))
    Except.ok
      { root := [root_dev],
        ephemeral := ephemeral_present,
        ebs := ebs_present.filter
          (fun x => !(pyStartswith root_dev (osPathJoinDev x))) }

/-- aws `__xenify`: the metadata block-device value with every `sd`
replaced by `xvd` (Python `str.replace`, left to right). -/
def replaceSd : List Char → List Char
  | [] => []
  | 's' :: 'd' :: rest => 'x' :: 'v' :: 'd' :: replaceSd rest
  | c :: rest => c :: replaceSd rest

def aws_xenify (m : AwsMeta) (devname : List Char) : List Char :=
  replaceSd (m.blockDeviceMapping devname)

/-- aws `__device_exists`: prepend `/dev/` unless the name already starts
with it, then `os.path.exists`. -/
def aws_device_exists (m : AwsMeta) (dev : List Char) : Bool :=
  if dev.take 4 ≠ chars "/dev" then m.pathExists (chars "/dev/" ++ dev)
  else m.pathExists dev

/-- Association-list model of the Python dict `self._disks` (string keys,
unique, insertion order preserved). -/
abbrev DisksDict := List (List Char × List (List Char))

def dlookup : DisksDict → List Char → Option (List (List Char))
  | [], _ => none
  | (k, v) :: d, key => if k = key then some v else dlookup d key

def dinsert : DisksDict → List Char → List (List Char) → DisksDict
  | [], key, v => [(key, v)]
  | (k, w) :: d, key, v =>
    if k = key then (k, v) :: d else (k, w) :: dinsert d key v

/-- `if t not in self._disks: self._disks[t] = []`. -/
def aws_populate_ensure (d : DisksDict) (t : List Char) : DisksDict :=
  if (dlookup d t).isSome then d else dinsert d t []

/-- One iteration of the `for dev in devmap.splitlines()` loop of
`__populate_disks` (lines 645-653): `t` is the leading non-digit part of
the metadata key (regex `^\D+`; an empty match raises AttributeError);
`ephemeral` keys are always skipped because `nvmes_present`, a three-key
dict, is always truthy; the key is created before the existence check and
`__xenify(dev)` is appended only when the xenified device exists. -/
def aws_populate_step (m : AwsMeta) (d : DisksDict) (dev : List Char) :
    Except String DisksDict :=
  let t := dev.takeWhile (fun c => !c.isDigit)
  if t.isEmpty then Except.error "AttributeError"
  else if t = chars "ephemeral" then Except.ok d
  else if aws_device_exists m (aws_xenify m dev) then
    Except.ok (dinsert (aws_populate_ensure d t) t
      ((dlookup (aws_populate_ensure d t) t).getD [] ++ [aws_xenify m dev]))
  else Except.ok (aws_populate_ensure d t)

def aws_populate_loop (m : AwsMeta) (d : DisksDict) :
    List (List Char) → Except String DisksDict
  | [] => Except.ok d
  | dev :: rest =>
    match aws_populate_step m d dev with
    | Except.error e => Except.error e
    | Except.ok d2 => aws_populate_loop m d2 rest

/-- aws `__populate_disks` (lines 637-655): seed the dict from
`_non_root_nvmes`, fold the metadata lines, then make sure an `ebs` key
exists. -/
def aws_populate_disks (s : OsState) (m : AwsMeta) : Except String DisksDict :=
  match aws_non_root_nvmes s with
  | Except.error e => Except.error e
  | Except.ok nvmes_present =>
    let d0 : DisksDict :=
      [(chars "root", nvmes_present.root),
       (chars "ephemeral", nvmes_present.ephemeral),
       (chars "ebs", nvmes_present.ebs)]
    match aws_populate_loop m d0 m.devmap with
    | Except.error e => Except.error e
    | Except.ok d =>
      Except.ok (if (dlookup d (chars "ebs")).isSome then d
                 else dinsert d (chars "ebs") [])

/-- aws `get_local_disks`: `set(self._disks["ephemeral"])` (modelled as a
list; set claims are stated through membership). -/
def aws_get_local_disks (s : OsState) (m : AwsMeta) :
    Except String (List (List Char)) :=
  (aws_populate_disks s m).map (fun d => (dlookup d (chars "ephemeral")).getD [])

/-- aws `get_remote_disks`: `set(self._disks["ebs"])`. -/
def aws_get_remote_disks (s : OsState) (m : AwsMeta) :
    Except String (List (List Char)) :=
  (aws_populate_disks s m).map (fun d => (dlookup d (chars "ebs")).getD [])

/-- aws `root_device`: `set(self._disks["root"])`. -/
def aws_root_device (s : OsState) (m : AwsMeta) :
    Except String (List (List Char)) :=
  (aws_populate_disks s m).map (fun d => (dlookup d (chars "root")).getD [])

/-- aws `non_root_disks`: `set(self._disks["ephemeral"] + self._disks["ebs"])`. -/
def aws_non_root_disks (s : OsState) (m : AwsMeta) :
    Except String (List (List Char)) :=
  (aws_populate_disks s m).map
    (fun d => (dlookup d (chars "ephemeral")).getD []
      ++ (dlookup d (chars "ebs")).getD [])

/-- aws `nvme_disk_count` (lines 735-737): the body is
`return len(non_root_disks)` where `non_root_disks` is an unbound name
(the method would be `self.non_root_disks()`), so every evaluation raises
`NameError` regardless of the instance state. -/
def aws_nvme_disk_count (_ : OsState) (_ : AwsMeta) : Except String ℕ :=
  Except.error "NameError: name non_root_disks is not defined"

def exceptOk {ε α : Type} : Except ε α → Bool
  | Except.ok _ => true
  | Except.error _ => false

/-- C9: the Azure and AWS probers fail with the ambiguous-root-mount error
exactly when the number of devices mounted at `/` differs from one, while
the GCP prober is a total function of the OS state — it never raises,
whatever the root-mount count (in particular it tolerates zero or one). -/
theorem c9_root_mount_check (s : OsState) :
    (exceptOk (azure_non_root_nvmes s) = true
      ↔ (rootDevCandidates s).length = 1)
    ∧ (exceptOk (aws_non_root_nvmes s) = true
      ↔ (rootDevCandidates s).length = 1)
    ∧ (gcp_non_root_nvmes s).root = rootDevs s := by
  refine ⟨?_, ?_, rfl⟩
  · unfold azure_non_root_nvmes
    by_cases h : (rootDevCandidates s).length = 1
    · simp [h, exceptOk]
    · simp [h, exceptOk]
  · unfold aws_non_root_nvmes
    by_cases h : (rootDevCandidates s).length = 1
    · simp [h, exceptOk]
    · simp [h, exceptOk]

/-- C3: for GCP, `nvme_disk_count` equals `min` of the OS-visible local
disk count and the metadata-implied NVME disk count; for Azure it equals
`min` of the OS-visible local disk count and the static Lsv2 table value
for the instance class (0 when the class is absent from the table). -/
theorem c3_min_reconciliation :
    (∀ (s : OsState) (md : Option (List GcpDisk)),
      gcp_nvme_disk_count s md
        = min (gcp_get_local_disks s).length
            (gcp_get_nvme_disks_from_metadata md).length)
    ∧ ∀ (s : OsState) (t : List Char) (l : List (List Char)) (cls : List Char),
      azure_get_local_disks s = Except.ok l →
      azure_instance_class t = some cls →
      azure_nvme_disk_count s t
        = some (min l.length ((azure_instanceToDiskCount.lookup cls).getD 0)) := by
  constructor
  · intro s md
    unfold gcp_nvme_disk_count
    dsimp only
    split <;> omega
  · intro s t l cls hl hcls
    unfold azure_nvme_disk_count azure_get_nvme_disks_count_from_metadata
    rw [hl, hcls]
    dsimp only
    simp only [Option.map_some']
    congr 1
    split <;> omega

/-- C3 witness: `c3_min_reconciliation` on an Azure state with three OS
NVMe disks and type `Standard_L16s_v2` (table value 2). -/
theorem c3_min_reconciliation_witness :
    azure_nvme_disk_count
        ⟨[chars "nvme0n1", chars "nvme1n1", chars "nvme2n1"],
         [(chars "/dev/sda1", chars "/")], fun _ => [], []⟩
        (chars "Standard_L16s_v2")
      = some (min 3 ((azure_instanceToDiskCount.lookup (chars "L16s")).getD 0)) := by
  have h := c3_min_reconciliation.2
    ⟨[chars "nvme0n1", chars "nvme1n1", chars "nvme2n1"],
     [(chars "/dev/sda1", chars "/")], fun _ => [], []⟩
    (chars "Standard_L16s_v2")
    [chars "nvme0n1", chars "nvme1n1", chars "nvme2n1"]
    (chars "L16s") (by rfl) (by rfl)
  simpa using h

/-- Sample AWS OS view: EBS-backed root on controller nvme0, one
instance-store NVMe (nvme1n1), plus metadata attaching one EBS device as
sdb (xvdb after xenification), which exists on the OS. -/
def awsSampleOs : OsState :=
  ⟨[chars "nvme0n1", chars "nvme1n1"],
   [(chars "/dev/nvme0n1p1", chars "/")],
   fun nm => if nm = chars "nvme0" then chars "Amazon Elastic Block Store"
             else chars "EC2 NVMe Instance Storage",
   []⟩

def awsSampleMeta : AwsMeta :=
  ⟨[chars "ebs2"], fun _ => chars "sdb", fun p => decide (p = chars "/dev/xvdb")⟩

/-- C4: `aws_instance.nvme_disk_count` raises `NameError` — its body reads
the unbound name `non_root_disks` instead of calling
`self.non_root_disks()` — while the intended value, the length of the
filtered, existence-checked union `non_root_disks()`, is 2 on the sample
inventory (one instance-store NVMe plus one xenified EBS device). -/
theorem c4_name_error :
    aws_nvme_disk_count awsSampleOs awsSampleMeta
      = Except.error "NameError: name non_root_disks is not defined"
    ∧ aws_non_root_disks awsSampleOs awsSampleMeta
      = Except.ok [chars "nvme1n1", chars "xvdb"]
    ∧ (aws_non_root_disks awsSampleOs awsSampleMeta).map List.length
      = Except.ok 2 :=
  ⟨rfl, rfl, rfl⟩

/-! ### C2: disjointness and root-freeness of the disk inventories -/

/-- AWS OS view where the root filesystem lives directly on an
instance-store NVMe and nothing else is attached. -/
def awsInstanceStoreRootOs : OsState :=
  ⟨[chars "nvme0n1"], [(chars "/dev/nvme0n1", chars "/")],
   fun _ => chars "EC2 NVMe Instance Storage", []⟩

def awsEmptyMeta : AwsMeta := ⟨[], fun _ => [], fun _ => false⟩

/-- C2 counterexample: on AWS the EPHEMERAL list of `_non_root_nvmes` is
not filtered against the root device, so when the root is an
instance-store NVMe, `get_local_disks()` contains the root device:
`/dev/` + the returned name is exactly the device mounted at `/`. -/
theorem c2_counterexample :
    aws_get_local_disks awsInstanceStoreRootOs awsEmptyMeta
      = Except.ok [chars "nvme0n1"]
    ∧ aws_root_device awsInstanceStoreRootOs awsEmptyMeta
      = Except.ok [chars "/dev/nvme0n1"]
    ∧ osPathJoinDev (chars "nvme0n1") = chars "/dev/nvme0n1" :=
  ⟨rfl, rfl, rfl⟩

theorem mem_gcp_local {s : OsState} {x : List Char}
    (h : x ∈ gcp_get_local_disks s) :
    matchNvme x = true ∧ is_in_root_devs x (rootDevs s) = false := by
  unfold gcp_get_local_disks gcp_non_root_nvmes at h
  simp only [List.mem_filter, Bool.not_eq_true'] at h
  exact ⟨h.1.2, h.2⟩

theorem lstripDevSet_devsd (rest : List Char) :
    lstripDevSet (chars "/dev/sd" ++ rest) = 's' :: 'd' :: rest := by
  show lstripDevSet ('/' :: 'd' :: 'e' :: 'v' :: '/' :: 's' :: 'd' :: rest) = _
  simp [lstripDevSet, List.dropWhile]

theorem matchDevSd_lstrip {y : List Char} (h : matchDevSd y = true) :
    ∃ rest, lstripDevSet y = 's' :: 'd' :: rest := by
  unfold matchDevSd at h
  simp only [Bool.and_eq_true] at h
  have hy := pyStartswith_eq_append h.1.1
  refine ⟨y.drop (chars "/dev/sd").length, ?_⟩
  conv_lhs => rw [hy]
  exact lstripDevSet_devsd _

theorem matchNvme_sd (rest : List Char) :
    matchNvme ('s' :: 'd' :: rest) = false := by
  have hs : pyStartswith ('s' :: 'd' :: rest) (chars "nvme") = false := by
    show pyStartswith _ ('n' :: 'v' :: 'm' :: 'e' :: []) = false
    simp [pyStartswith]
  simp [matchNvme, parseNvme, hs]

theorem mem_gcp_remote {s : OsState} {x : List Char}
    (h : x ∈ gcp_get_remote_disks s) :
    (∃ rest, x = 's' :: 'd' :: rest)
    ∧ is_in_root_devs x (rootDevs s) = false := by
  unfold gcp_get_remote_disks gcp_non_root_disks at h
  simp only [List.mem_map, List.mem_filter, Bool.not_eq_true'] at h
  obtain ⟨y, ⟨⟨hyg, hsd⟩, hroot⟩, rfl⟩ := h
  exact ⟨matchDevSd_lstrip hsd, hroot⟩

/-- Eliminating a successful azure `_non_root_nvmes`: the EPHEMERAL entry
is the same filter expression GCP uses. -/
theorem azure_local_ok_elim {s : OsState} {l : List (List Char)}
    (h : azure_get_local_disks s = Except.ok l) :
    l = gcp_get_local_disks s := by
  unfold azure_get_local_disks azure_non_root_nvmes at h
  by_cases hc : (rootDevCandidates s).length = 1
  · rw [if_neg (by simpa using hc)] at h
    simp only [Except.map_ok] at h
    cases h
    rfl
  · rw [if_pos hc] at h
    simp [Except.map] at h

theorem azure_remote_ok_elim {s : OsState} {r : List (List Char)}
    (h : azure_get_remote_disks s = Except.ok r) :
    r = gcp_get_remote_disks s := by
  unfold azure_get_remote_disks azure_non_root_nvmes at h
  by_cases hc : (rootDevCandidates s).length = 1
  · rw [if_neg (by simpa using hc)] at h
    simp only [Except.map_ok] at h
    cases h
    rfl
  · rw [if_pos hc] at h
    simp [Except.map] at h

theorem dlookup_dinsert_self (d : DisksDict) (key : List Char)
    (v : List (List Char)) : dlookup (dinsert d key v) key = some v := by
  induction d with
  | nil => simp [dinsert, dlookup]
  | cons p d ih =>
    obtain ⟨k0, w⟩ := p
    by_cases h0 : k0 = key
    · simp [dinsert, dlookup, h0]
    · simp [dinsert, dlookup, h0, ih]

theorem dlookup_dinsert_ne {k key : List Char} (d : DisksDict)
    (v : List (List Char)) (h : k ≠ key) :
    dlookup (dinsert d key v) k = dlookup d k := by
  induction d with
  | nil => simp [dinsert, dlookup, Ne.symm h]
  | cons p d ih =>
    obtain ⟨k0, w⟩ := p
    by_cases h0 : k0 = key
    · subst h0
      simp [dinsert, dlookup, Ne.symm h]
    · simp [dinsert, dlookup, h0, ih]

theorem ensure_lookup_ne {k t : List Char} (d : DisksDict) (h : k ≠ t) :
    dlookup (aws_populate_ensure d t) k = dlookup d k := by
  unfold aws_populate_ensure
  by_cases hs : (dlookup d t).isSome
  · rw [if_pos hs]
  · rw [if_neg hs]
    exact dlookup_dinsert_ne d [] h

theorem ensure_getD_self (d : DisksDict) (t : List Char) :
    (dlookup (aws_populate_ensure d t) t).getD [] = (dlookup d t).getD [] := by
  unfold aws_populate_ensure
  by_cases hs : (dlookup d t).isSome
  · rw [if_pos hs]
  · rw [if_neg hs, dlookup_dinsert_self]
    cases hl : dlookup d t with
    | none => rfl
    | some v => rw [hl] at hs; simp at hs

/-- Case analysis of one successful `__populate_disks` loop iteration. -/
theorem step_cases {m : AwsMeta} {d d2 : DisksDict} {dev : List Char}
    (h : aws_populate_step m d dev = Except.ok d2) :
    d2 = d
    ∨ ∃ t, t = dev.takeWhile (fun c => !c.isDigit) ∧ t ≠ chars "ephemeral"
        ∧ (d2 = aws_populate_ensure d t
           ∨ d2 = dinsert (aws_populate_ensure d t) t
               ((dlookup (aws_populate_ensure d t) t).getD []
                 ++ [aws_xenify m dev])) := by
  unfold aws_populate_step at h
  dsimp only at h
  by_cases h1 : (dev.takeWhile (fun c => !c.isDigit)).isEmpty
  · rw [if_pos h1] at h
    exact absurd h (by simp)
  · rw [if_neg h1] at h
    by_cases h2 : dev.takeWhile (fun c => !c.isDigit) = chars "ephemeral"
    · rw [if_pos h2] at h
      exact Or.inl (Except.ok.inj h).symm
    · rw [if_neg h2] at h
      by_cases h3 : aws_device_exists m (aws_xenify m dev) = true
      · rw [if_pos h3] at h
        exact Or.inr ⟨_, rfl, h2, Or.inr (Except.ok.inj h).symm⟩
      · rw [if_neg h3] at h
        exact Or.inr ⟨_, rfl, h2, Or.inl (Except.ok.inj h).symm⟩

theorem step_lookup_eph {m : AwsMeta} {d d2 : DisksDict} {dev : List Char}
    (h : aws_populate_step m d dev = Except.ok d2) :
    dlookup d2 (chars "ephemeral") = dlookup d (chars "ephemeral") := by
  rcases step_cases h with rfl | ⟨t, ht, hne, rfl | rfl⟩
  · rfl
  · exact ensure_lookup_ne d (fun hh => hne hh.symm)
  · rw [dlookup_dinsert_ne _ _ (fun hh => hne hh.symm)]
    exact ensure_lookup_ne d (fun hh => hne hh.symm)

theorem step_ebs_mem {m : AwsMeta} {d d2 : DisksDict} {dev : List Char}
    (h : aws_populate_step m d dev = Except.ok d2) :
    ∀ x ∈ (dlookup d2 (chars "ebs")).getD [],
      x ∈ (dlookup d (chars "ebs")).getD [] ∨ x = aws_xenify m dev := by
  rcases step_cases h with rfl | ⟨t, ht, hne, rfl | rfl⟩
  · exact fun x hx => Or.inl hx
  · intro x hx
    by_cases he : chars "ebs" = t
    · rw [he, ensure_getD_self] at hx
      exact Or.inl (by rw [he]; exact hx)
    · rw [ensure_lookup_ne d he] at hx
      exact Or.inl hx
  · intro x hx
    by_cases he : chars "ebs" = t
    · rw [he, dlookup_dinsert_self] at hx
      simp only [Option.getD_some] at hx
      rw [ensure_getD_self] at hx
      rcases List.mem_append.mp hx with h1 | h2
      · exact Or.inl (by rw [he]; exact h1)
      · exact Or.inr (by simpa using h2)
    · rw [dlookup_dinsert_ne _ _ he, ensure_lookup_ne d he] at hx
      exact Or.inl hx

theorem loop_lookup_eph {m : AwsMeta} :
    ∀ (devs : List (List Char)) (d d2 : DisksDict),
      aws_populate_loop m d devs = Except.ok d2 →
      dlookup d2 (chars "ephemeral") = dlookup d (chars "ephemeral") := by
  intro devs
  induction devs with
  | nil =>
    intro d d2 h
    unfold aws_populate_loop at h
    rw [Except.ok.inj h]
  | cons dev rest ih =>
    intro d d2 h
    unfold aws_populate_loop at h
    cases hstep : aws_populate_step m d dev with
    | error e =>
      simp only [hstep] at h
      exact Except.noConfusion h
    | ok d1 =>
      simp only [hstep] at h
      rw [ih d1 d2 h, step_lookup_eph hstep]

theorem loop_ebs_mem {m : AwsMeta} :
    ∀ (devs : List (List Char)) (d d2 : DisksDict),
      aws_populate_loop m d devs = Except.ok d2 →
      ∀ x ∈ (dlookup d2 (chars "ebs")).getD [],
        x ∈ (dlookup d (chars "ebs")).getD []
        ∨ ∃ dev ∈ devs, x = aws_xenify m dev := by
  intro devs
  induction devs with
  | nil =>
    intro d d2 h x hx
    unfold aws_populate_loop at h
    cases Except.ok.inj h
    exact Or.inl hx
  | cons dev rest ih =>
    intro d d2 h x hx
    unfold aws_populate_loop at h
    cases hstep : aws_populate_step m d dev with
    | error e =>
      simp only [hstep] at h
      exact Except.noConfusion h
    | ok d1 =>
      simp only [hstep] at h
      rcases ih d1 d2 h x hx with h1 | ⟨dev', hd', hx'⟩
      · rcases step_ebs_mem hstep x h1 with h2 | h2
        · exact Or.inl h2
        · exact Or.inr ⟨dev, List.mem_cons_self dev rest, h2⟩
      · exact Or.inr ⟨dev', List.mem_cons_of_mem _ hd', hx'⟩

theorem dlookup_seed_eph (a b c : List (List Char)) :
    dlookup [(chars "root", a), (chars "ephemeral", b), (chars "ebs", c)]
      (chars "ephemeral") = some b := by
  have e1 : ¬ (chars "root" = chars "ephemeral") := by decide
  simp [dlookup, e1]

theorem dlookup_seed_ebs (a b c : List (List Char)) :
    dlookup [(chars "root", a), (chars "ephemeral", b), (chars "ebs", c)]
      (chars "ebs") = some c := by
  have e1 : ¬ (chars "root" = chars "ebs") := by decide
  have e2 : ¬ (chars "ephemeral" = chars "ebs") := by decide
  simp [dlookup, e1, e2]

theorem aws_nvmes_ok_elim {s : OsState} {nv : AwsNvmes}
    (h : aws_non_root_nvmes s = Except.ok nv) :
    nv.ephemeral = s.devListing.filter
        (fun x => aws_filter_nvmes s x (chars "ephemeral"))
    ∧ ∀ x ∈ nv.ebs, aws_filter_nvmes s x (chars "ebs") = true := by
  unfold aws_non_root_nvmes at h
  by_cases hc : (rootDevCandidates s).length = 1
  · rw [if_neg (by simpa using hc)] at h
    cases Except.ok.inj h
    refine ⟨rfl, ?_⟩
    intro x hx
    simp only [List.mem_filter] at hx
    exact hx.1.2
  · rw [if_pos hc] at h
    exact Except.noConfusion h

theorem aws_local_ok_elim {s : OsState} {m : AwsMeta} {l : List (List Char)}
    (h : aws_get_local_disks s m = Except.ok l) :
    ∃ nv, aws_non_root_nvmes s = Except.ok nv ∧ l = nv.ephemeral := by
  unfold aws_get_local_disks aws_populate_disks at h
  cases hn : aws_non_root_nvmes s with
  | error e =>
    simp only [hn, Except.map] at h
    exact Except.noConfusion h
  | ok nv =>
    simp only [hn] at h
    refine ⟨nv, rfl, ?_⟩
    cases hl : aws_populate_loop m
        [(chars "root", nv.root), (chars "ephemeral", nv.ephemeral),
         (chars "ebs", nv.ebs)] m.devmap with
    | error e => rw [hl] at h; simp [Except.map] at h
    | ok d =>
      rw [hl] at h
      simp only [Except.map] at h
      have hfinal := (Except.ok.inj h).symm
      have heq : dlookup (if (dlookup d (chars "ebs")).isSome then d
          else dinsert d (chars "ebs") []) (chars "ephemeral")
          = dlookup d (chars "ephemeral") := by
        by_cases hs : (dlookup d (chars "ebs")).isSome
        · rw [if_pos hs]
        · rw [if_neg hs]
          exact dlookup_dinsert_ne d [] (by decide)
      rw [heq, loop_lookup_eph m.devmap _ d hl, dlookup_seed_eph] at hfinal
      exact hfinal

theorem aws_remote_mem_elim {s : OsState} {m : AwsMeta} {r : List (List Char)}
    {x : List Char} (h : aws_get_remote_disks s m = Except.ok r) (hx : x ∈ r) :
    ∃ nv, aws_non_root_nvmes s = Except.ok nv
      ∧ (x ∈ nv.ebs ∨ ∃ dev ∈ m.devmap, x = aws_xenify m dev) := by
  unfold aws_get_remote_disks aws_populate_disks at h
  cases hn : aws_non_root_nvmes s with
  | error e =>
    simp only [hn, Except.map] at h
    exact Except.noConfusion h
  | ok nv =>
    simp only [hn] at h
    refine ⟨nv, rfl, ?_⟩
    cases hl : aws_populate_loop m
        [(chars "root", nv.root), (chars "ephemeral", nv.ephemeral),
         (chars "ebs", nv.ebs)] m.devmap with
    | error e => rw [hl] at h; simp [Except.map] at h
    | ok d =>
      rw [hl] at h
      simp only [Except.map] at h
      have hfinal := (Except.ok.inj h).symm
      have heq : (dlookup (if (dlookup d (chars "ebs")).isSome then d
          else dinsert d (chars "ebs") []) (chars "ebs")).getD []
          = (dlookup d (chars "ebs")).getD [] := by
        by_cases hs : (dlookup d (chars "ebs")).isSome
        · rw [if_pos hs]
        · rw [if_neg hs, dlookup_dinsert_self]
          cases hlo : dlookup d (chars "ebs") with
          | none => rfl
          | some v => rw [hlo] at hs; simp at hs
      rw [heq] at hfinal
      rw [hfinal] at hx
      rcases loop_ebs_mem m.devmap _ d hl x hx with h1 | h2
      · rw [dlookup_seed_ebs] at h1
        exact Or.inl h1
      · exact Or.inr h2

theorem aws_filter_eph_elim {s : OsState} {x : List Char}
    (h : aws_filter_nvmes s x (chars "ephemeral") = true) :
    ∃ nm, parseNvme x = some nm
      ∧ s.nvmeModel nm ≠ chars "Amazon Elastic Block Store" := by
  unfold aws_filter_nvmes at h
  cases hp : parseNvme x with
  | none =>
    simp only [hp] at h
    exact absurd h Bool.false_ne_true
  | some nm =>
    simp only [hp] at h
    rw [if_pos trivial] at h
    exact ⟨nm, rfl, of_decide_eq_true h⟩

theorem aws_filter_ebs_elim {s : OsState} {x : List Char}
    (h : aws_filter_nvmes s x (chars "ebs") = true) :
    ∃ nm, parseNvme x = some nm
      ∧ s.nvmeModel nm = chars "Amazon Elastic Block Store" := by
  unfold aws_filter_nvmes at h
  cases hp : parseNvme x with
  | none =>
    simp only [hp] at h
    exact absurd h Bool.false_ne_true
  | some nm =>
    simp only [hp] at h
    rw [if_neg (by decide)] at h
    exact ⟨nm, rfl, of_decide_eq_true h⟩

/-- The three C2 properties on the GCP inventory, shared by the GCP and
Azure halves of the amended claim. -/
theorem gcp_disk_sets_ok (s : OsState) (x : List Char) :
    (x ∈ gcp_get_local_disks s → x ∉ gcp_get_remote_disks s)
    ∧ (x ∈ gcp_get_local_disks s → is_in_root_devs x (rootDevs s) = false)
    ∧ (x ∈ gcp_get_remote_disks s → is_in_root_devs x (rootDevs s) = false) := by
  refine ⟨?_, fun hl => (mem_gcp_local hl).2, fun hr => (mem_gcp_remote hr).2⟩
  intro hl hr
  obtain ⟨rest, hrest⟩ := (mem_gcp_remote hr).1
  have hnv := (mem_gcp_local hl).1
  rw [hrest, matchNvme_sd] at hnv
  exact Bool.false_ne_true hnv

/-- C2 amended: for GCP and Azure the claim holds as stated — the local
and remote sets are disjoint (NVMe-patterned names vs `sd`-patterned
names) and both probers drop every name whose `/dev` path is a prefix of
a root device.  For AWS, local and remote are disjoint provided no
xenified metadata device name is NVMe-patterned (real metadata values are
`sd`/`xvd` names), but `get_local_disks()` is not filtered against the
root device and can contain it (see `c2_counterexample`). -/
theorem c2_amended :
    (∀ (s : OsState) (x : List Char),
      (x ∈ gcp_get_local_disks s → x ∉ gcp_get_remote_disks s)
      ∧ (x ∈ gcp_get_local_disks s → is_in_root_devs x (rootDevs s) = false)
      ∧ (x ∈ gcp_get_remote_disks s → is_in_root_devs x (rootDevs s) = false))
    ∧ (∀ (s : OsState) (l r : List (List Char)) (x : List Char),
      azure_get_local_disks s = Except.ok l →
      azure_get_remote_disks s = Except.ok r →
      (x ∈ l → x ∉ r)
      ∧ (x ∈ l → is_in_root_devs x (rootDevs s) = false)
      ∧ (x ∈ r → is_in_root_devs x (rootDevs s) = false))
    ∧ ∀ (s : OsState) (m : AwsMeta) (l r : List (List Char)) (x : List Char),
      (∀ dev ∈ m.devmap, matchNvme (aws_xenify m dev) = false) →
      aws_get_local_disks s m = Except.ok l →
      aws_get_remote_disks s m = Except.ok r →
      x ∈ l → x ∉ r := by
  refine ⟨fun s x => gcp_disk_sets_ok s x, ?_, ?_⟩
  · intro s l r x hlo hro
    rw [azure_local_ok_elim hlo, azure_remote_ok_elim hro]
    exact gcp_disk_sets_ok s x
  · intro s m l r x hxen hlo hro hxl hxr
    obtain ⟨nv, hn, hleq⟩ := aws_local_ok_elim hlo
    obtain ⟨nv', hn', hmem⟩ := aws_remote_mem_elim hro hxr
    rw [hn] at hn'
    cases Except.ok.inj hn'
    obtain ⟨heph, hebs⟩ := aws_nvmes_ok_elim hn
    rw [hleq, heph] at hxl
    simp only [List.mem_filter] at hxl
    obtain ⟨nm, hpm, hne⟩ := aws_filter_eph_elim hxl.2
    rcases hmem with hxe | ⟨dev, hdev, hxx⟩
    · obtain ⟨nm2, hpm2, heq2⟩ := aws_filter_ebs_elim (hebs x hxe)
      rw [hpm] at hpm2
      cases Option.some.inj hpm2
      exact hne heq2
    · have hxm := hxen dev hdev
      rw [← hxx] at hxm
      unfold matchNvme at hxm
      rw [hpm] at hxm
      simp at hxm

/-- C2 witness: the GCP half of `c2_amended` on a state with one NVMe, one
`sdb` and an `sda1` root. -/
theorem c2_amended_witness :
    chars "nvme0n1" ∉ gcp_get_remote_disks
      ⟨[chars "nvme0n1", chars "sdb"], [(chars "/dev/sda1", chars "/")],
       fun _ => [], []⟩
    ∧ is_in_root_devs (chars "nvme0n1")
      (rootDevs ⟨[chars "nvme0n1", chars "sdb"],
        [(chars "/dev/sda1", chars "/")], fun _ => [], []⟩) = false :=
  ⟨(c2_amended.1 ⟨[chars "nvme0n1", chars "sdb"],
      [(chars "/dev/sda1", chars "/")], fun _ => [], []⟩
      (chars "nvme0n1")).1 (by decide),
   (c2_amended.1 ⟨[chars "nvme0n1", chars "sdb"],
      [(chars "/dev/sda1", chars "/")], fun _ => [], []⟩
      (chars "nvme0n1")).2.1 (by decide)⟩
